import Mathlib

/-!  Shallow embedding of the EC2 instance scheduler's core logic.

Source functions embedded here:
- `should_process_run` (src/cron_checker.py; src/app.py's `should_execute`
  is line-for-line the same function body),
- `should_execute` (src/aws_scheduler/app.py, the next-occurrence variant),
- `get_filtered_ec2_instances`, `instance_action`,
- the sweep orchestrators `scan_for_action` (src/aws_scheduler/app.py) and
  the body of the `/api/v1/get_schedule/active` route
  `get_all_active_schedules` (src/app.py).

Python runtime pieces the sources lean on (`str.strip`, `re.split`, `int()`,
`str()`, `datetime`, `date`) are modelled by executable Lean functions over
`List Char` and a proleptic-Gregorian calendar, matching CPython behaviour on
the value ranges the program exercises.  The DynamoDB scan and the EC2
describe / start / stop calls are external collaborators (spec section 6);
they are modelled by an explicit environment record together with an event
log of the remote calls the sweep issues.
-/

/-- Python `str.lower()` (ASCII range), as used by
`pattern.lower() in name.lower()` and `action.lower()`. -/
def pyLower (s : String) : String := String.mk (s.data.map Char.toLower)

/-- needle is a leading run of hay, character by character. -/
def leadsWith : List Char → List Char → Bool
  | [], _ => true
  | _ :: _, [] => false
  | a :: as, b :: bs => a == b && leadsWith as bs

/-- Python `needle in hay` on strings: contiguous substring test. -/
def hasSub (needle : List Char) : List Char → Bool
  | [] => leadsWith needle []
  | c :: rest => leadsWith needle (c :: rest) || hasSub needle rest

/-- Python `str.strip()`. -/
def pyStrip (s : String) : String :=
  String.mk (((s.data.dropWhile Char.isWhitespace).reverse.dropWhile Char.isWhitespace).reverse)

/-- helper for `cronParts`: splits on runs of whitespace. -/
def fieldsAux : List Char → List Char → List String
  | [], acc => if acc.isEmpty then [] else [String.mk acc.reverse]
  | c :: cs, acc =>
    if c.isWhitespace then
      if acc.isEmpty then fieldsAux cs [] else String.mk acc.reverse :: fieldsAux cs []
    else fieldsAux cs (c :: acc)

/-- Models `re.split(r'\s+', cron_expression.strip())` (cron_checker.py line
17, aws_scheduler/app.py line 144).  On an all-whitespace input Python yields
`['']` where this yields `[]`; both have length different from 5, which is all
the callers observe. -/
def cronParts (s : String) : List String := fieldsAux s.data []

/-- split on a dash, keeping empty pieces (helper for `parseDate`). -/
def splitDashAux : List Char → List Char → List String
  | [], acc => [String.mk acc.reverse]
  | c :: cs, acc =>
    if c == '-' then String.mk acc.reverse :: splitDashAux cs []
    else splitDashAux cs (c :: acc)

def digitsValAux : List Char → Nat → Option Nat
  | [], acc => some acc
  | c :: cs, acc => if c.isDigit then digitsValAux cs (acc * 10 + (c.toNat - 48)) else none

/-- value of a nonempty all-digit string; `none` otherwise. -/
def digitsVal? : List Char → Option Nat
  | [] => none
  | cs => digitsValAux cs 0

def strToNat? (s : String) : Option Nat := digitsVal? s.data

/-- Python `int(s)` on an optionally signed decimal literal; `none` models the
ValueError raised on anything else. -/
def strToInt? (s : String) : Option Int :=
  match s.data with
  | '-' :: rest => (digitsVal? rest).map (fun n => -(n : Int))
  | '+' :: rest => (digitsVal? rest).map (fun n => (n : Int))
  | cs => (digitsVal? cs).map (fun n => (n : Int))

def natDigitsAux : Nat → Nat → List Char → List Char
  | 0, _, acc => acc
  | fuel + 1, n, acc =>
    let d := Char.ofNat (48 + n % 10)
    if n < 10 then d :: acc else natDigitsAux fuel (n / 10) (d :: acc)

/-- Python `str(n)` for a natural number (`str(now.minute)` and friends). -/
def pyStr (n : Nat) : String := String.mk (natDigitsAux (n + 1) n [])

/-- Gregorian leap-year test. -/
def isLeap (y : Nat) : Bool := (y % 4 == 0 && y % 100 != 0) || y % 400 == 0

def daysInMonth (y m : Nat) : Nat :=
  if m = 2 then (if isLeap y then 29 else 28)
  else if m = 4 ∨ m = 6 ∨ m = 9 ∨ m = 11 then 30
  else 31

structure Date where
  year : Nat
  month : Nat
  day : Nat
deriving DecidableEq

def daysBeforeMonth (y m : Nat) : Nat :=
  let base :=
    if m ≤ 1 then 0 else if m = 2 then 31 else if m = 3 then 59 else if m = 4 then 90
    else if m = 5 then 120 else if m = 6 then 151 else if m = 7 then 181 else if m = 8 then 212
    else if m = 9 then 243 else if m = 10 then 273 else if m = 11 then 304 else 334
  if 2 < m then (if isLeap y then base + 1 else base) else base

/-- Python `date.toordinal()`: proleptic Gregorian, 0001-01-01 maps to 1. -/
def Date.toOrdinal (d : Date) : Nat :=
  let py := d.year - 1
  365 * py + py / 4 - py / 100 + py / 400 + daysBeforeMonth d.year d.month + d.day

/-- Python `date.weekday()`: Monday = 0, ..., Sunday = 6. -/
def Date.weekday (d : Date) : Nat := (d.toOrdinal + 6) % 7

def Date.nextDay (d : Date) : Date :=
  if d.day < daysInMonth d.year d.month then ⟨d.year, d.month, d.day + 1⟩
  else if d.month < 12 then ⟨d.year, d.month + 1, 1⟩
  else ⟨d.year + 1, 1, 1⟩

/-- Python `date + timedelta(days = n)` for a nonnegative day count. -/
def Date.addDays (d : Date) : Nat → Date
  | 0 => d
  | n + 1 => Date.addDays d.nextDay n

/-- strict `>` on calendar dates, as in `now.date() > until`. -/
def Date.isAfter (a b : Date) : Bool :=
  if a.year = b.year then
    (if a.month = b.month then decide (b.day < a.day) else decide (b.month < a.month))
  else decide (b.year < a.year)

/-- Python `datetime.strptime(s, "%Y-%m-%d").date()`; `none` models the
ValueError on anything that is not a valid calendar date in that format. -/
def parseDate (s : String) : Option Date :=
  match splitDashAux s.data [] with
  | [ys, ms, ds] =>
    match strToNat? ys, strToNat? ms, strToNat? ds with
    | some y, some m, some d =>
      if 1 ≤ y ∧ y ≤ 9999 ∧ 1 ≤ m ∧ m ≤ 12 ∧ 1 ≤ d ∧ d ≤ daysInMonth y m then some ⟨y, m, d⟩
      else none
    | _, _, _ => none
  | _ => none

structure DateTime where
  year : Nat
  month : Nat
  day : Nat
  hour : Nat
  minute : Nat
  second : Nat
deriving DecidableEq

def DateTime.date (t : DateTime) : Date := ⟨t.year, t.month, t.day⟩

/-- lexicographic `now <= cron_time` (Python datetime comparison; the
sub-second fields are zero everywhere the program compares). -/
def DateTime.leb (a b : DateTime) : Bool :=
  if a.year = b.year then
    if a.month = b.month then
      if a.day = b.day then
        if a.hour = b.hour then
          if a.minute = b.minute then decide (a.second ≤ b.second)
          else decide (a.minute < b.minute)
        else decide (a.hour < b.hour)
      else decide (a.day < b.day)
    else decide (a.month < b.month)
  else decide (a.year < b.year)

/-- the invariants every value produced by Python `datetime.now()` satisfies. -/
def DateTime.Valid (t : DateTime) : Prop :=
  1 ≤ t.year ∧ t.year ≤ 9999 ∧ 1 ≤ t.month ∧ t.month ≤ 12 ∧ 1 ≤ t.day ∧
    t.day ≤ daysInMonth t.year t.month ∧ t.hour ≤ 23 ∧ t.minute ≤ 59 ∧ t.second ≤ 59

instance (t : DateTime) : Decidable t.Valid := by
  unfold DateTime.Valid
  infer_instance

/-- Python `datetime(year, month, day, hour, minute)`; `none` models the
ValueError on out-of-range components (e.g. Feb 30). -/
def mkDateTime? (y mo d h mi : Int) : Option DateTime :=
  if 1 ≤ y ∧ y ≤ 9999 ∧ 1 ≤ mo ∧ mo ≤ 12 ∧ 1 ≤ d ∧ d ≤ (daysInMonth y.toNat mo.toNat : Int) ∧
      0 ≤ h ∧ h ≤ 23 ∧ 0 ≤ mi ∧ mi ≤ 59 then
    some ⟨y.toNat, mo.toNat, d.toNat, h.toNat, mi.toNat, 0⟩
  else none

inductive PyErr
  | clientError (msg : String)
  | otherError (msg : String)
deriving DecidableEq

/-- the `except Exception ... return False` boundary wrapping both matchers. -/
def pyCatch (x : Except PyErr Bool) : Bool :=
  match x with
  | .ok b => b
  | .error _ => false

/-- tuple unpacking `minute, hour, day_of_month, month, day_of_week =
cron_parts` guarded by the five-field count check; any other shape takes the
default (the raised ValueError). -/
def pickFive {α : Type} (l : List String)
    (f : String → String → String → String → String → α) (dflt : α) : α :=
  match l with
  | [a, b, c, d, e] => f a b c d e
  | _ => dflt

/-- body of `should_process_run` (src/cron_checker.py lines 21-60) after the
field split: parse the until date, compare it, then compare each cron field
as a string against the matching component of `now`; the day-of-week field is
parsed with `int()` and checked with the 0-or-7-is-Sunday convention.  A
`none` until models passing Python `None` to `strptime` (TypeError). -/
def sprFields (minute hour dom mon dow : String) (untilDate : Option String)
    (now : DateTime) : Except PyErr Bool :=
  match untilDate with
  | none => Except.error (PyErr.otherError "TypeError: strptime argument must be str")
  | some s =>
    match parseDate s with
    | none => Except.error (PyErr.otherError "ValueError: time data does not match format")
    | some u =>
      if Date.isAfter now.date u then Except.ok false
      else if minute ≠ "*" ∧ pyStr now.minute ≠ minute then Except.ok false
      else if hour ≠ "*" ∧ pyStr now.hour ≠ hour then Except.ok false
      else if dom ≠ "*" ∧ pyStr now.day ≠ dom then Except.ok false
      else if mon ≠ "*" ∧ pyStr now.month ≠ mon then Except.ok false
      else if dow ≠ "*" then
        match strToInt? dow with
        | none => Except.error (PyErr.otherError "ValueError: invalid literal for int")
        | some cronDow =>
          if cronDow = 0 ∨ cronDow = 7 then
            (if now.date.weekday ≠ 6 then Except.ok false else Except.ok true)
          else if (cronDow - 1 : Int) ≠ (now.date.weekday : Int) then Except.ok false
          else Except.ok true
      else Except.ok true

def should_process_run_body (expr : String) (untilDate : Option String)
    (now : DateTime) : Except PyErr Bool :=
  pickFive (cronParts expr) (fun mi h dm mo dw => sprFields mi h dm mo dw untilDate now)
    (Except.error (PyErr.otherError "ValueError: Invalid cron expression format"))

/-- `should_process_run` of src/cron_checker.py; src/app.py's
`should_execute` (lines 128-188) has the identical body. -/
def should_process_run (expr : String) (untilDate : Option String) (now : DateTime) : Bool :=
  pyCatch (should_process_run_body expr untilDate now)

/-- `now.minute if minute == '*' else int(minute)` and the three analogous
projections (src/aws_scheduler/app.py lines 158-161). -/
def fieldVal (f : String) (cur : Nat) : Except PyErr Int :=
  if f = "*" then Except.ok (Int.ofNat cur)
  else match strToInt? f with
    | none => Except.error (PyErr.otherError "ValueError: invalid literal for int")
    | some i => Except.ok i

/-- day-of-week override of src/aws_scheduler/app.py lines 164-173: a literal
day-of-week replaces day, month and year by the next date with that cron
weekday (0 = Sunday), computed from `now` by adding `(dow - current_dow) % 7`
days. -/
def seDow (dow : String) (now : DateTime) (cronDay cronMonth cronYear : Int) :
    Except PyErr (Int × Int × Int) :=
  if dow = "*" then Except.ok (cronDay, cronMonth, cronYear)
  else match strToInt? dow with
    | none => Except.error (PyErr.otherError "ValueError: invalid literal for int")
    | some cronDow =>
      let currentDow : Int := ((now.date.weekday : Int) + 1) % 7
      let daysToAdd : Int := (cronDow - currentDow) % 7
      let target := Date.addDays now.date daysToAdd.toNat
      Except.ok ((target.day : Int), (target.month : Int), (target.year : Int))

/-- src/aws_scheduler/app.py lines 157-182: build `cron_time` from the five
fields (wildcards taken from `now`), fail closed on an impossible calendar
date, and return `now <= cron_time`. -/
def seCron (minute hour dom mon dow : String) (now : DateTime) : Except PyErr Bool :=
  match fieldVal minute now.minute with
  | .error e => .error e
  | .ok cronMinute =>
    match fieldVal hour now.hour with
    | .error e => .error e
    | .ok cronHour =>
      match fieldVal dom now.day with
      | .error e => .error e
      | .ok cronDay0 =>
        match fieldVal mon now.month with
        | .error e => .error e
        | .ok cronMonth0 =>
          match seDow dow now cronDay0 cronMonth0 (Int.ofNat now.year) with
          | .error e => .error e
          | .ok (cronDay, cronMonth, cronYear) =>
            match mkDateTime? cronYear cronMonth cronDay cronHour cronMinute with
            | none => Except.ok false
            | some cronTime => Except.ok (DateTime.leb now cronTime)

/-- body of src/aws_scheduler/app.py's `should_execute` (lines 142-182) after
the field split: the optional until date is checked first (`if until_date:`
Python truthiness skips `none` and the empty string), then the cron fields
are projected to a target instant. -/
def seFields (minute hour dom mon dow : String) (untilDate : Option String)
    (now : DateTime) : Except PyErr Bool :=
  match untilDate with
  | none => seCron minute hour dom mon dow now
  | some s =>
    if s = "" then seCron minute hour dom mon dow now
    else match parseDate (pyStrip s) with
      | none => Except.error (PyErr.otherError "ValueError: time data does not match format")
      | some u =>
        if Date.isAfter now.date u then Except.ok false
        else seCron minute hour dom mon dow now

def should_execute_body (expr : String) (untilDate : Option String)
    (now : DateTime) : Except PyErr Bool :=
  pickFive (cronParts expr) (fun mi h dm mo dw => seFields mi h dm mo dw untilDate now)
    (Except.error (PyErr.otherError "ValueError: Invalid cron expression format"))

/-- `should_execute` of src/aws_scheduler/app.py (lines 130-186). -/
def should_execute (expr : String) (untilDate : Option String) (now : DateTime) : Bool :=
  pyCatch (should_execute_body expr untilDate now)

/-!  Instance filter, action resolver and sweep orchestrators.  The AWS
collaborators (DynamoDB scan, per-region EC2 clients) are modelled by an
environment `Env`; every remote call the sweep issues is recorded in an
`Event` log so that the side effects of a sweep are observable. -/

def REGIONS_EC2 : List String := ["eu-central-1", "us-east-1", "ap-south-1"]

def STATE_FILTER_INCLUDE_PATTERNS : List String :=
  ["pending", "running", "stopping", "stopped", "shutting-down"]

def NAME_FILTER_EXCLUDE_PATTERNS : List String := ["CI", "terminated"]

def DEFAULT_SCHEDULE_TAG_NAME : String := "ScheduledFor"

/-- a raw EC2 instance as the describe call reports it. -/
structure RawInstance where
  instanceId : String
  tags : List (String × String)
  state : String
deriving DecidableEq

/-- the per-instance dict built by `get_filtered_ec2_instances`
(InstanceId / Name / CurrentState). -/
structure InstRecord where
  instanceId : String
  name : String
  currentState : String
deriving DecidableEq

/-- a stored schedule record; `untilDate = none` models an item without the
`until` attribute (one-time schedules in aws_scheduler/app.py). -/
structure Schedule where
  name : String
  action : String
  active : String
  cron_expression : String
  untilDate : Option String
deriving DecidableEq

/-- remote calls issued during a sweep. -/
inductive Event
  | describeCall (region : String) (forTag : Option String)
  | startCall (region instanceId : String)
  | stopCall (region instanceId : String)
deriving DecidableEq

/-- the external world one sweep runs against: the schedule table, the raw
reservations each region's describe call would report, and which start/stop
requests the compute API rejects with a ClientError. -/
structure Env where
  store : List Schedule
  reservations : String → List (List RawInstance)
  startFails : String → String → Bool
  stopFails : String → String → Bool
  now : DateTime

/-- Python truthiness of `if for_tag:` — `None` and the empty string both
leave the tag filter off. -/
def effectiveTag (forTag : Option String) : Option String :=
  match forTag with
  | none => none
  | some v => if v = "" then none else some v

/-- server-side semantics of the describe filters the code sends (state
include set, plus the `tag:ScheduledFor` filter when present); this models
the compute API collaborator of spec sections 4.2 and 6. -/
def serverKeeps (forTag : Option String) (i : RawInstance) : Bool :=
  STATE_FILTER_INCLUDE_PATTERNS.contains i.state &&
    (match effectiveTag forTag with
     | none => true
     | some v => i.tags.any (fun t => t.1 == DEFAULT_SCHEDULE_TAG_NAME && t.2 == v))

def awsDescribe (env : Env) (region : String) (forTag : Option String) :
    List (List RawInstance) :=
  (env.reservations region).map (fun res => res.filter (serverKeeps forTag))

/-- the tag loop of get_filtered_ec2_instances: `name` is the value of the
last `Name` tag, or the empty string when there is none. -/
def deriveName (tags : List (String × String)) : String :=
  (tags.filter (fun t => t.1 == "Name")).foldl (fun _ t => t.2) ""

/-- the exclusion loop: drop the instance when any pattern occurs
case-insensitively in its derived name. -/
def excludedByName (name : String) : Bool :=
  NAME_FILTER_EXCLUDE_PATTERNS.any (fun p => hasSub (pyLower p).data (pyLower name).data)

def processInstance (i : RawInstance) : Option InstRecord :=
  if excludedByName (deriveName i.tags) then none
  else some ⟨i.instanceId, deriveName i.tags, i.state⟩

def describeEvents (forTag : Option String) : List Event :=
  REGIONS_EC2.map (fun r => Event.describeCall r (effectiveTag forTag))

/-- `get_filtered_ec2_instances` (src/app.py lines 190-250 and the identical
src/aws_scheduler/app.py lines 188-248): one describe call per region, then
the client-side name exclusion; the result keeps the per-region grouping. -/
def get_filtered_ec2_instances (env : Env) (forTag : Option String) :
    List (String × List InstRecord) × List Event :=
  (REGIONS_EC2.map (fun region =>
      (region, ((awsDescribe env region forTag).map
        (fun res => res.filterMap processInstance)).flatten)),
   describeEvents forTag)

/-- the local `result` dict of `instance_action`. -/
structure StateChange where
  instance_id : String
  instance_name : String
  region : String
  scheduledFor : String
  action : String
  from_state : String
  to_state : String
deriving DecidableEq

structure ErrorRecord where
  instance_id : String
  region : String
  error : String
deriving DecidableEq

structure ActionResult where
  schedules_processed : Nat
  instances_modified : Nat
  state_changes : List StateChange
  errors : List ErrorRecord
deriving DecidableEq

def emptyActionResult : ActionResult := ⟨0, 0, [], []⟩

/-- `instance_action` of src/aws_scheduler/app.py (lines 250-296): the valid
transitions are start-from-stopped and stop-from-running; a ClientError from
the compute API is caught and appended to the local errors list.  The value
returned to Python callers is `None` (the function has no return statement);
this definition exposes the local `result` dict and the API calls issued so
that what the caller actually receives can be stated against it.  A region
outside `REGIONS_EC2` raises KeyError on the client lookup, which the
ClientError handler does not catch. -/
def instance_action_aws (env : Env)
    (action current_state instance_id instance_name region schedule_name : String) :
    Except PyErr (ActionResult × List Event) :=
  if region ∈ REGIONS_EC2 then
    if pyLower action = "start" ∧ current_state = "stopped" then
      if env.startFails region instance_id then
        Except.ok ({ emptyActionResult with
          errors := [⟨instance_id, region, "ClientError"⟩] },
          [Event.startCall region instance_id])
      else
        Except.ok ({ emptyActionResult with
          instances_modified := 1,
          state_changes :=
            [⟨instance_id, instance_name, region, schedule_name, "start", "stopped", "pending"⟩] },
          [Event.startCall region instance_id])
    else if pyLower action = "stop" ∧ current_state = "running" then
      if env.stopFails region instance_id then
        Except.ok ({ emptyActionResult with
          errors := [⟨instance_id, region, "ClientError"⟩] },
          [Event.stopCall region instance_id])
      else
        Except.ok ({ emptyActionResult with
          instances_modified := 1,
          state_changes :=
            [⟨instance_id, instance_name, region, schedule_name, "stop", "running", "stopping"⟩] },
          [Event.stopCall region instance_id])
    else Except.ok (emptyActionResult, [])
  else Except.error (PyErr.otherError "KeyError")

/-- `instance_action` of src/app.py (lines 252-299).  Identical to the
aws_scheduler variant except in the ClientError handler, which evaluates
`schedule['action']` — at that point `schedule` is the module-level Flask
route handler function defined at line 330, so subscripting it raises
TypeError inside the handler and the exception escapes the function. -/
def instance_action_v1 (env : Env)
    (action current_state instance_id instance_name region schedule_name : String) :
    Except PyErr (ActionResult × List Event) :=
  if region ∈ REGIONS_EC2 then
    if pyLower action = "start" ∧ current_state = "stopped" then
      if env.startFails region instance_id then
        Except.error (PyErr.otherError "TypeError: function object is not subscriptable")
      else
        Except.ok ({ emptyActionResult with
          instances_modified := 1,
          state_changes :=
            [⟨instance_id, instance_name, region, schedule_name, "start", "stopped", "pending"⟩] },
          [Event.startCall region instance_id])
    else if pyLower action = "stop" ∧ current_state = "running" then
      if env.stopFails region instance_id then
        Except.error (PyErr.otherError "TypeError: function object is not subscriptable")
      else
        Except.ok ({ emptyActionResult with
          instances_modified := 1,
          state_changes :=
            [⟨instance_id, instance_name, region, schedule_name, "stop", "running", "stopping"⟩] },
          [Event.stopCall region instance_id])
    else Except.ok (emptyActionResult, [])
  else Except.error (PyErr.otherError "KeyError")

/-- the two nested loops over regions and instances shared by both sweep
variants; `ran` records whether any `instance_action` call was made (after
which the Python variable `applied_on_instances` holds `None`). -/
def sweepFold
    (act : String → String → String → String → Except PyErr (ActionResult × List Event))
    (instancesByRegion : List (String × List InstRecord)) (ev1 : List Event) :
    Except PyErr (Bool × List Event) :=
  instancesByRegion.foldl (fun acc ri =>
    ri.2.foldl (fun acc2 inst =>
      match acc2 with
      | .error e => .error e
      | .ok (_, evs2) =>
        match act inst.currentState inst.instanceId inst.name ri.1 with
        | .error e => .error e
        | .ok (_r, ev) => .ok (true, evs2 ++ ev)) acc)
    (Except.ok (false, ev1))

/-- one iteration of the schedule loop in `scan_for_action`
(src/aws_scheduler/app.py lines 340-361): the instance filter runs first,
then the matcher decides whether any actions are attempted. -/
def processSchedule_aws (env : Env) (sch : Schedule) : Except PyErr (Bool × List Event) :=
  let filtered := get_filtered_ec2_instances env (some sch.name)
  if should_execute sch.cron_expression sch.untilDate env.now then
    sweepFold (fun st id nm rg => instance_action_aws env sch.action st id nm rg sch.name)
      filtered.1 filtered.2
  else Except.ok (false, filtered.2)

/-- one iteration of the schedule loop in src/app.py's
`get_all_active_schedules` (lines 366-389); `schedule['until']` raises
KeyError when the attribute is absent, and the matcher is the
minute-granularity `should_execute` = `should_process_run`. -/
def processSchedule_v1 (env : Env) (sch : Schedule) : Except PyErr (Bool × List Event) :=
  let filtered := get_filtered_ec2_instances env (some sch.name)
  match sch.untilDate with
  | none => Except.error (PyErr.otherError "KeyError: until")
  | some u =>
    if should_process_run sch.cron_expression (some u) env.now then
      sweepFold (fun st id nm rg => instance_action_v1 env sch.action st id nm rg sch.name)
        filtered.1 filtered.2
    else Except.ok (false, filtered.2)

/-- `get_active_schedules` / the DynamoDB scan with
`active = :active_val, {":active_val": "true"}`. -/
def get_active_schedules (env : Env) : List Schedule :=
  env.store.filter (fun s => s.active == "true")

/-- the two values the Python variable `applied_on_instances` can hold at the
end of a sweep: its initial `[]`, or the `None` returned by the last
`instance_action` call. -/
inductive AppliedVal
  | initialEmpty
  | noneVal
deriving DecidableEq

/-- the dict `scan_for_action` returns. -/
structure ScanResult where
  status : String
  processed_instances : AppliedVal
deriving DecidableEq

def sweepSchedules (env : Env)
    (processSchedule : Env → Schedule → Except PyErr (Bool × List Event)) :
    Except PyErr (Bool × List Event) :=
  (get_active_schedules env).foldl (fun acc sch =>
    match acc with
    | .error e => .error e
    | .ok (ran, evs) =>
      match processSchedule env sch with
      | .error e => .error e
      | .ok (ran2, ev2) => .ok (ran || ran2, evs ++ ev2)) (Except.ok (false, []))

/-- `scan_for_action` of src/aws_scheduler/app.py (lines 334-363), returning
the status dict together with the log of remote calls issued. -/
def scan_for_action (env : Env) : Except PyErr (ScanResult × List Event) :=
  match sweepSchedules env processSchedule_aws with
  | .error e => .error e
  | .ok (ran, evs) =>
    .ok ({ status := "success",
           processed_instances := if ran then AppliedVal.noneVal else AppliedVal.initialEmpty },
         evs)

/-- the sweep body of src/app.py's `/api/v1/get_schedule/active` route
(lines 357-391), which returns `jsonify(applied_on_instances)`. -/
def get_all_active_schedules (env : Env) : Except PyErr (AppliedVal × List Event) :=
  match sweepSchedules env processSchedule_v1 with
  | .error e => .error e
  | .ok (ran, evs) =>
    .ok ((if ran then AppliedVal.noneVal else AppliedVal.initialEmpty), evs)

/-!  Concrete fixture environments used by the closed theorems below. -/

/-- a sweep wall-clock instant whose seconds are zero. -/
def now0 : DateTime := ⟨2025, 1, 8, 10, 0, 0⟩

/-- one due start schedule, two stopped tagged instances in us-east-1, the
compute API rejecting the start of the first. -/
def envFailAws : Env where
  store := [⟨"morning", "start", "true", "* * * * *", none⟩]
  reservations := fun r =>
    if r = "us-east-1" then
      [[⟨"i-1", [("ScheduledFor", "morning")], "stopped"⟩],
       [⟨"i-2", [("ScheduledFor", "morning")], "stopped"⟩]]
    else []
  startFails := fun r i => r = "us-east-1" && i = "i-1"
  stopFails := fun _ _ => false
  now := now0

/-- the same sweep for the src/app.py variant (whose schedules carry an
`until` attribute). -/
def envFailV1 : Env :=
  { envFailAws with store := [⟨"morning", "start", "true", "* * * * *", some "2099-01-01"⟩] }

/-- one due stop schedule and one running tagged instance; every compute API
call succeeds. -/
def envOkStop : Env where
  store := [⟨"nightly", "stop", "true", "* * * * *", some "2099-01-01"⟩]
  reservations := fun r =>
    if r = "us-east-1" then [[⟨"i-9", [("ScheduledFor", "nightly")], "running"⟩]] else []
  startFails := fun _ _ => false
  stopFails := fun _ _ => false
  now := now0

/-- one active schedule that is not due at 11:00 (its rule names 10:00). -/
def envNotDue : Env where
  store := [⟨"offpeak", "stop", "true", "0 10 * * *", none⟩]
  reservations := fun _ => []
  startFails := fun _ _ => false
  stopFails := fun _ _ => false
  now := ⟨2025, 1, 8, 11, 0, 0⟩

/-!  Helper lemmas. -/

theorem pyStr_inj_lt60 : ∀ a, a < 60 → ∀ b, b < 60 → pyStr a = pyStr b → a = b := by decide

theorem pyStr_ne_star : ∀ a, a < 60 → pyStr a ≠ "*" := by decide

theorem pickFive_of_len_ne {α : Type} (l : List String)
    (f : String → String → String → String → String → α) (d : α)
    (h : l.length ≠ 5) : pickFive l f d = d := by
  match l with
  | [] => rfl
  | [_] => rfl
  | [_, _] => rfl
  | [_, _, _] => rfl
  | [_, _, _, _] => rfl
  | [_, _, _, _, _] => simp at h
  | _ :: _ :: _ :: _ :: _ :: _ :: _ => rfl

theorem pickFive_cases {α : Type} (l : List String) :
    (∃ a b c d e, l = [a, b, c, d, e]) ∨
      ∀ (f : String → String → String → String → String → α) (d : α), pickFive l f d = d := by
  match l with
  | [] => exact Or.inr (fun _ _ => rfl)
  | [_] => exact Or.inr (fun _ _ => rfl)
  | [_, _] => exact Or.inr (fun _ _ => rfl)
  | [_, _, _] => exact Or.inr (fun _ _ => rfl)
  | [_, _, _, _] => exact Or.inr (fun _ _ => rfl)
  | [a, b, c, d, e] => exact Or.inl ⟨a, b, c, d, e, rfl⟩
  | _ :: _ :: _ :: _ :: _ :: _ :: _ => exact Or.inr (fun _ _ => rfl)

theorem daysInMonth_le31 (y m : Nat) : daysInMonth y m ≤ 31 := by
  unfold daysInMonth
  split_ifs <;> omega

theorem daysInMonth_feb_le29 (y : Nat) : daysInMonth y 2 ≤ 29 := by
  unfold daysInMonth
  split_ifs <;> omega

theorem excludedByName_empty : excludedByName "" = false := by decide

theorem parseDate_empty : parseDate "" = none := by rfl

/-- a passed (non-short-circuited) literal field check forces the component to
equal the literal, for components and literals below 60. -/
theorem fieldHit {cur lit : Nat} (hcur : cur < 60) (hlit : lit < 60)
    (h : ¬(pyStr lit ≠ "*" ∧ pyStr cur ≠ pyStr lit)) : cur = lit := by
  push_neg at h
  exact pyStr_inj_lt60 cur hcur lit hlit (h (pyStr_ne_star lit hlit))

/-- C1 counterexample: the claim quantifies over both matchers, but
src/aws_scheduler/app.py's `should_execute` on the rule `0 22 * * *` is
already true at 21:59, a minute whose components differ from the literals. -/
theorem C1_counterexample :
    should_execute "0 22 * * *" none ⟨2025, 1, 8, 21, 59, 0⟩ = true ∧
      (⟨2025, 1, 8, 21, 59, 0⟩ : DateTime).minute ≠ 0 ∧
      (⟨2025, 1, 8, 21, 59, 0⟩ : DateTime).hour ≠ 22 :=
  ⟨rfl, by decide, by decide⟩

/-- C1 (amended): minute-granularity literal matching holds for
`should_process_run` (src/cron_checker.py; src/app.py's `should_execute` is
the same function): when the minute and hour fields are the decimal literals
of m (0-59) and h (0-23), the matcher returns true only if `now`'s minute and
hour equal m and h.  src/aws_scheduler/app.py's `should_execute` instead
returns true for every instant up to and including the projected target
instant, so it is due for many minutes per day. -/
theorem C1_amended (expr : String) (u : Option String) (now : DateTime)
    (m h : Nat) (domF monF dowF : String)
    (hm : m < 60) (hh : h < 24)
    (hmin : now.minute ≤ 59) (hhr : now.hour ≤ 23)
    (hparts : cronParts expr = [pyStr m, pyStr h, domF, monF, dowF]) :
    should_process_run expr u now = true → now.minute = m ∧ now.hour = h := by
  intro htrue
  unfold should_process_run should_process_run_body at htrue
  rw [hparts] at htrue
  simp only [pickFive] at htrue
  rcases u with _ | s
  · simp [sprFields, pyCatch] at htrue
  · rcases hpd : parseDate s with _ | ud
    · simp only [sprFields] at htrue
      rw [hpd] at htrue
      simp [pyCatch] at htrue
    · simp only [sprFields] at htrue
      rw [hpd] at htrue
      by_cases h1 : Date.isAfter now.date ud = true
      · simp [h1, pyCatch] at htrue
      by_cases h2 : pyStr m ≠ "*" ∧ pyStr now.minute ≠ pyStr m
      · simp [h1, h2, pyCatch] at htrue
      by_cases h3 : pyStr h ≠ "*" ∧ pyStr now.hour ≠ pyStr h
      · simp [h1, h2, h3, pyCatch] at htrue
      exact ⟨fieldHit (by omega) (by omega) h2, fieldHit (by omega) (by omega) h3⟩

theorem C1_witness :
    (cronParts "0 22 * * *" = [pyStr 0, pyStr 22, "*", "*", "*"]) ∧
      (should_process_run "0 22 * * *" (some "2099-01-01") ⟨2025, 1, 8, 22, 0, 0⟩ = true →
        (⟨2025, 1, 8, 22, 0, 0⟩ : DateTime).minute = 0 ∧
          (⟨2025, 1, 8, 22, 0, 0⟩ : DateTime).hour = 22) :=
  ⟨by decide,
   C1_amended "0 22 * * *" (some "2099-01-01") ⟨2025, 1, 8, 22, 0, 0⟩ 0 22 "*" "*" "*"
     (by decide) (by decide) (by decide) (by decide) (by decide)⟩

/-- C5 counterexample: in src/aws_scheduler/app.py's `should_execute` a
literal day-of-week overrides the day-of-month field.  Rule `0 22 15 * 3`
(day-of-month 15, Wednesday) is satisfied on Wednesday 2025-01-08 even though
the day of month is 8, not 15 — the two constraints are not conjunctive
there. -/
theorem C5_counterexample :
    should_execute "0 22 15 * 3" none ⟨2025, 1, 8, 10, 0, 0⟩ = true ∧
      (⟨2025, 1, 8, 10, 0, 0⟩ : DateTime).day ≠ 15 ∧
      Date.weekday ⟨2025, 1, 8⟩ = 2 :=
  ⟨rfl, by decide, by decide⟩

/-- C5 (amended): conjunctive semantics hold for `should_process_run`
(src/cron_checker.py; src/app.py's `should_execute` is the same function):
with a literal day-of-month (decimal literal of ddom) and a literal
day-of-week w, the matcher returns true only if `now`'s day equals ddom and
`now`'s weekday satisfies w under the 0-or-7-is-Sunday convention.
src/aws_scheduler/app.py's `should_execute` instead lets a literal
day-of-week override the day-of-month field entirely. -/
theorem C5_amended (expr : String) (u : Option String) (now : DateTime)
    (ddom : Nat) (w : Int) (mF hF monF dowF : String)
    (hddom : ddom < 60) (hday : now.day ≤ 31)
    (hparts : cronParts expr = [mF, hF, pyStr ddom, monF, dowF])
    (hw : strToInt? dowF = some w) :
    should_process_run expr u now = true →
      now.day = ddom ∧
        ((w = 0 ∨ w = 7) → now.date.weekday = 6) ∧
        (¬(w = 0 ∨ w = 7) → (w - 1 : Int) = (now.date.weekday : Int)) := by
  intro htrue
  unfold should_process_run should_process_run_body at htrue
  rw [hparts] at htrue
  simp only [pickFive] at htrue
  rcases u with _ | s
  · simp [sprFields, pyCatch] at htrue
  · rcases hpd : parseDate s with _ | ud
    · simp only [sprFields] at htrue
      rw [hpd] at htrue
      simp [pyCatch] at htrue
    · simp only [sprFields] at htrue
      rw [hpd] at htrue
      have hdne : dowF ≠ "*" := by
        intro h
        rw [h, show strToInt? "*" = none from rfl] at hw
        simp at hw
      by_cases h1 : Date.isAfter now.date ud = true
      · simp [h1, pyCatch] at htrue
      by_cases h2 : mF ≠ "*" ∧ pyStr now.minute ≠ mF
      · simp [h1, h2, pyCatch] at htrue
      by_cases h3 : hF ≠ "*" ∧ pyStr now.hour ≠ hF
      · simp [h1, h2, h3, pyCatch] at htrue
      by_cases h4 : pyStr ddom ≠ "*" ∧ pyStr now.day ≠ pyStr ddom
      · simp [h1, h2, h3, h4, pyCatch] at htrue
      by_cases h5 : monF ≠ "*" ∧ pyStr now.month ≠ monF
      · simp [h1, h2, h3, h4, h5, pyCatch] at htrue
      have hdayEq : now.day = ddom := fieldHit (by omega) hddom h4
      simp only [h1, h2, h3, h4, h5] at htrue
      simp [hdne, hw] at htrue
      by_cases h07 : w = 0 ∨ w = 7
      · by_cases hwk : now.date.weekday = 6
        · exact ⟨hdayEq, fun _ => hwk, fun hn => absurd h07 hn⟩
        · simp [h07, hwk, pyCatch] at htrue
      · by_cases heq : (w - 1 : Int) = (now.date.weekday : Int)
        · exact ⟨hdayEq, fun hc => absurd hc h07, fun _ => heq⟩
        · simp [h07, heq, pyCatch] at htrue

theorem C5_witness :
    (cronParts "0 22 15 * 3" = ["0", "22", pyStr 15, "*", "3"]) ∧
      (should_process_run "0 22 15 * 3" (some "2099-01-01") ⟨2025, 1, 15, 22, 0, 0⟩ = true →
        (⟨2025, 1, 15, 22, 0, 0⟩ : DateTime).day = 15 ∧
          (((3 : Int) = 0 ∨ (3 : Int) = 7) → Date.weekday ⟨2025, 1, 15⟩ = 6) ∧
          (¬((3 : Int) = 0 ∨ (3 : Int) = 7) →
            ((3 : Int) - 1) = (Date.weekday ⟨2025, 1, 15⟩ : Int))) :=
  ⟨by decide,
   C5_amended "0 22 15 * 3" (some "2099-01-01") ⟨2025, 1, 15, 22, 0, 0⟩ 15 3 "0" "22" "*" "3"
     (by decide) (by decide) (by decide) (by decide)⟩

/-- C7: with a present, parseable expiration date and a `now` whose calendar
date is strictly after it, both temporal matchers return false regardless of
the five cron fields. -/
theorem C7_thm (expr s : String) (u : Date) (now : DateTime)
    (hp : parseDate s = some u) (hstrip : pyStrip s = s)
    (hafter : Date.isAfter now.date u = true) :
    should_process_run expr (some s) now = false ∧
      should_execute expr (some s) now = false := by
  have hne : s ≠ "" := by
    intro h
    rw [h, parseDate_empty] at hp
    simp at hp
  rcases pickFive_cases (α := Except PyErr Bool) (cronParts expr) with ⟨a, b, c, d, e, hl⟩ | hd
  · constructor
    · unfold should_process_run should_process_run_body
      rw [hl]
      simp only [pickFive, sprFields]
      rw [hp]
      simp [hafter, pyCatch]
    · unfold should_execute should_execute_body
      rw [hl]
      simp only [pickFive, seFields]
      rw [if_neg hne, hstrip, hp]
      simp [hafter, pyCatch]
  · constructor
    · unfold should_process_run should_process_run_body
      rw [hd]
      rfl
    · unfold should_execute should_execute_body
      rw [hd]
      rfl

theorem C7_witness :
    (parseDate "2025-01-01" = some ⟨2025, 1, 1⟩) ∧
      (Date.isAfter (DateTime.date ⟨2025, 1, 2, 0, 0, 0⟩) ⟨2025, 1, 1⟩ = true) ∧
      should_process_run "* * * * *" (some "2025-01-01") ⟨2025, 1, 2, 0, 0, 0⟩ = false ∧
      should_execute "* * * * *" (some "2025-01-01") ⟨2025, 1, 2, 0, 0, 0⟩ = false :=
  ⟨by decide, by decide,
   (C7_thm "* * * * *" "2025-01-01" ⟨2025, 1, 1⟩ ⟨2025, 1, 2, 0, 0, 0⟩
     (by decide) (by decide) (by decide)).1,
   (C7_thm "* * * * *" "2025-01-01" ⟨2025, 1, 1⟩ ⟨2025, 1, 2, 0, 0, 0⟩
     (by decide) (by decide) (by decide)).2⟩

/-- C9 counterexample: the claim quantifies over the temporal matchers, but
`should_process_run` (src/cron_checker.py; src/app.py's `should_execute`)
passes an absent expiration straight to `strptime`, whose TypeError makes the
matcher return false for every input — even the all-wildcard rule that
matches any instant, as the second conjunct shows.  Dueness is therefore not
decided by the cron fields when the expiration is absent. -/
theorem C9_counterexample :
    should_process_run "* * * * *" none ⟨2025, 1, 8, 10, 0, 0⟩ = false ∧
      should_process_run "* * * * *" (some "2099-01-01") ⟨2025, 1, 8, 10, 0, 0⟩ = true :=
  ⟨rfl, rfl⟩

/-- C9 (amended): for src/aws_scheduler/app.py's `should_execute` an absent
expiration date is vacuous: the result is exactly the pure cron-field
evaluation `seCron`, and it agrees with the result under any present,
unexpired expiration date.  `should_process_run` (src/cron_checker.py and
src/app.py) instead requires a present expiration string and fails closed
(always false) when it is absent. -/
theorem C9_amended (expr : String) (now : DateTime) (mF hF domF monF dowF : String)
    (hparts : cronParts expr = [mF, hF, domF, monF, dowF]) :
    should_execute expr none now = pyCatch (seCron mF hF domF monF dowF now) ∧
      (∀ s u, parseDate (pyStrip s) = some u → pyStrip s = s →
        Date.isAfter now.date u = false →
          should_execute expr (some s) now = should_execute expr none now) := by
  constructor
  · unfold should_execute should_execute_body
    rw [hparts]
    simp only [pickFive, seFields]
  · intro s u hp hstrip hafter
    have hne : s ≠ "" := by
      intro h
      rw [h, show pyStrip "" = "" from rfl, parseDate_empty] at hp
      simp at hp
    rw [hstrip] at hp
    unfold should_execute should_execute_body
    rw [hparts]
    simp only [pickFive, seFields]
    rw [if_neg hne, hstrip, hp]
    simp [hafter]

theorem C9_witness :
    (cronParts "30 6 * * *" = ["30", "6", "*", "*", "*"]) ∧
      should_execute "30 6 * * *" none ⟨2025, 1, 8, 6, 15, 0⟩ =
        pyCatch (seCron "30" "6" "*" "*" "*" ⟨2025, 1, 8, 6, 15, 0⟩) ∧
      should_execute "30 6 * * *" (some "2099-01-01") ⟨2025, 1, 8, 6, 15, 0⟩ =
        should_execute "30 6 * * *" none ⟨2025, 1, 8, 6, 15, 0⟩ :=
  ⟨by decide,
   (C9_amended "30 6 * * *" ⟨2025, 1, 8, 6, 15, 0⟩ "30" "6" "*" "*" "*" (by decide)).1,
   (C9_amended "30 6 * * *" ⟨2025, 1, 8, 6, 15, 0⟩ "30" "6" "*" "*" "*" (by decide)).2
     "2099-01-01" ⟨2099, 1, 1⟩ (by decide) (by decide) (by decide)⟩

/-- C8: both temporal matchers fail closed.  A field count other than five, an
unparseable expiration string, a non-integer literal field, and a field
combination naming an impossible calendar date (Feb 30) all yield false, and
an error raised inside either matcher body is converted to false by the
catch-all boundary instead of escaping to the caller. -/
theorem C8_thm :
    (∀ expr u now, (cronParts expr).length ≠ 5 →
      should_process_run expr u now = false ∧ should_execute expr u now = false) ∧
    (∀ expr s now, parseDate s = none →
      should_process_run expr (some s) now = false) ∧
    (∀ expr s now, s ≠ "" → parseDate (pyStrip s) = none →
      should_execute expr (some s) now = false) ∧
    (∀ expr u now mF hF domF monF dowF,
      cronParts expr = [mF, hF, domF, monF, dowF] → mF ≠ "*" → strToInt? mF = none →
        should_execute expr u now = false) ∧
    (∀ expr u now mF hF domF monF dowF,
      cronParts expr = [mF, hF, domF, monF, dowF] → dowF ≠ "*" → strToInt? dowF = none →
        should_process_run expr u now = false) ∧
    (∀ u now, should_execute "0 0 30 2 *" u now = false) ∧
    (∀ u now, now.Valid → should_process_run "0 0 30 2 *" u now = false) ∧
    (∀ expr u now e, should_process_run_body expr u now = Except.error e →
      should_process_run expr u now = false) ∧
    (∀ expr u now e, should_execute_body expr u now = Except.error e →
      should_execute expr u now = false) := by
  refine ⟨?_, ?_, ?_, ?_, ?_, ?_, ?_, ?_, ?_⟩
  · intro expr u now hlen
    constructor
    · unfold should_process_run should_process_run_body
      rw [pickFive_of_len_ne _ _ _ hlen]
      rfl
    · unfold should_execute should_execute_body
      rw [pickFive_of_len_ne _ _ _ hlen]
      rfl
  · intro expr s now hp
    rcases pickFive_cases (α := Except PyErr Bool) (cronParts expr) with ⟨a, b, c, d, e, hl⟩ | hd
    · unfold should_process_run should_process_run_body
      rw [hl]
      simp only [pickFive, sprFields]
      rw [hp]
      rfl
    · unfold should_process_run should_process_run_body
      rw [hd]
      rfl
  · intro expr s now hne hp
    rcases pickFive_cases (α := Except PyErr Bool) (cronParts expr) with ⟨a, b, c, d, e, hl⟩ | hd
    · unfold should_execute should_execute_body
      rw [hl]
      simp only [pickFive, seFields]
      rw [if_neg hne, hp]
      rfl
    · unfold should_execute should_execute_body
      rw [hd]
      rfl
  · intro expr u now mF hF domF monF dowF hl hne hnone
    have hfv : fieldVal mF now.minute =
        Except.error (PyErr.otherError "ValueError: invalid literal for int") := by
      unfold fieldVal
      rw [if_neg hne, hnone]
    have hcr : pyCatch (seCron mF hF domF monF dowF now) = false := by
      unfold seCron
      rw [hfv]
      rfl
    unfold should_execute should_execute_body
    rw [hl]
    simp only [pickFive]
    rcases u with _ | s
    · simp only [seFields]
      exact hcr
    · simp only [seFields]
      by_cases hse : s = ""
      · rw [if_pos hse]
        exact hcr
      · rw [if_neg hse]
        rcases hpd : parseDate (pyStrip s) with _ | ud
        · rfl
        · simp only []
          by_cases ha : Date.isAfter now.date ud = true
          · rw [if_pos ha]
            rfl
          · rw [if_neg ha]
            exact hcr
  · intro expr u now mF hF domF monF dowF hl hne hnone
    unfold should_process_run should_process_run_body
    rw [hl]
    simp only [pickFive]
    rcases u with _ | s
    · rfl
    · simp only [sprFields]
      rcases hpd : parseDate s with _ | ud
      · rfl
      · simp only []
        split_ifs <;> simp_all [pyCatch, hnone]
  · intro u now
    have h30 : cronParts "0 0 30 2 *" = ["0", "0", "30", "2", "*"] := by decide
    have hmk : mkDateTime? (Int.ofNat now.year) 2 30 0 0 = none := by
      unfold mkDateTime?
      rw [if_neg]
      intro hcond
      obtain ⟨-, -, -, -, -, hle, -⟩ := hcond
      have h2 := daysInMonth_feb_le29 now.year
      rw [show (Int.ofNat now.year).toNat = now.year from rfl,
          show ((2 : Int)).toNat = 2 from rfl] at hle
      omega
    have hcr : pyCatch (seCron "0" "0" "30" "2" "*" now) = false := by
      unfold seCron
      rw [show fieldVal "0" now.minute = Except.ok 0 from rfl,
          show fieldVal "0" now.hour = Except.ok 0 from rfl,
          show fieldVal "30" now.day = Except.ok 30 from rfl,
          show fieldVal "2" now.month = Except.ok 2 from rfl]
      simp only []
      rw [show seDow "*" now 30 2 (Int.ofNat now.year) =
            Except.ok (30, 2, Int.ofNat now.year) from rfl]
      simp only []
      rw [hmk]
      rfl
    unfold should_execute should_execute_body
    rw [h30]
    simp only [pickFive]
    rcases u with _ | s
    · simp only [seFields]
      exact hcr
    · simp only [seFields]
      by_cases hse : s = ""
      · rw [if_pos hse]
        exact hcr
      · rw [if_neg hse]
        rcases hpd : parseDate (pyStrip s) with _ | ud
        · rfl
        · simp only []
          by_cases ha : Date.isAfter now.date ud = true
          · rw [if_pos ha]
            rfl
          · rw [if_neg ha]
            exact hcr
  · intro u now hval
    obtain ⟨-, -, -, hm12, -, hdm, -, -, -⟩ := hval
    have h30 : cronParts "0 0 30 2 *" = ["0", "0", "30", "2", "*"] := by decide
    unfold should_process_run should_process_run_body
    rw [h30]
    simp only [pickFive]
    rcases u with _ | s
    · rfl
    · simp only [sprFields]
      rcases hpd : parseDate s with _ | ud
      · rfl
      · simp only []
        by_cases h1 : Date.isAfter now.date ud = true
        · rw [if_pos h1]
          rfl
        · rw [if_neg h1]
          by_cases h2 : ("0" : String) ≠ "*" ∧ pyStr now.minute ≠ "0"
          · rw [if_pos h2]
            rfl
          · rw [if_neg h2]
            by_cases h3 : ("0" : String) ≠ "*" ∧ pyStr now.hour ≠ "0"
            · rw [if_pos h3]
              rfl
            · rw [if_neg h3]
              by_cases h4 : ("30" : String) ≠ "*" ∧ pyStr now.day ≠ "30"
              · rw [if_pos h4]
                rfl
              · have hle31 := daysInMonth_le31 now.year now.month
                have hd : now.day = 30 := fieldHit (by omega) (by omega) h4
                by_cases h5 : ("2" : String) ≠ "*" ∧ pyStr now.month ≠ "2"
                · rw [if_neg h4, if_pos h5]
                  rfl
                · have hm : now.month = 2 := fieldHit (by omega) (by omega) h5
                  exfalso
                  have h29 := daysInMonth_feb_le29 now.year
                  rw [hm] at hdm
                  omega
  · intro expr u now e h
    unfold should_process_run
    rw [h]
    rfl
  · intro expr u now e h
    unfold should_execute
    rw [h]
    rfl

theorem C8_witness :
    ((cronParts "1 2 3").length ≠ 5 ∧ should_process_run "1 2 3" none now0 = false ∧
        should_execute "1 2 3" none now0 = false) ∧
      (parseDate "not-a-date" = none ∧
        should_process_run "* * * * *" (some "not-a-date") now0 = false ∧
        should_execute "* * * * *" (some "not-a-date") now0 = false) ∧
      should_execute "x 1 1 1 1" none now0 = false ∧
      should_process_run "* * * * x" (some "2099-01-01") now0 = false ∧
      should_execute "0 0 30 2 *" none now0 = false ∧
      should_process_run "0 0 30 2 *" (some "2099-01-01") now0 = false := by
  refine ⟨⟨by decide, ?_, ?_⟩, ⟨by decide, ?_, ?_⟩, ?_, ?_, ?_, ?_⟩
  · exact (C8_thm.1 "1 2 3" none now0 (by decide)).1
  · exact (C8_thm.1 "1 2 3" none now0 (by decide)).2
  · exact C8_thm.2.1 "* * * * *" "not-a-date" now0 (by decide)
  · exact C8_thm.2.2.1 "* * * * *" "not-a-date" now0 (by decide) (by decide)
  · exact C8_thm.2.2.2.1 "x 1 1 1 1" none now0 "x" "1" "1" "1" "1"
      (by decide) (by decide) (by decide)
  · exact C8_thm.2.2.2.2.1 "* * * * x" (some "2099-01-01") now0 "*" "*" "*" "*" "x"
      (by decide) (by decide) (by decide)
  · exact C8_thm.2.2.2.2.2.1 none now0
  · exact C8_thm.2.2.2.2.2.2.1 (some "2099-01-01") now0 (by decide)

/-- C6: `instance_action` requests a start exactly when the action is "start"
case-insensitively and the state is "stopped" (recording stopped to pending),
requests a stop exactly when the action is "stop" case-insensitively and the
state is "running" (recording running to stopping), and for every other
action/state pair issues no compute-API call and records no state change. -/
theorem C6_thm (env : Env) (action state id name region sched : String)
    (hreg : region ∈ REGIONS_EC2) :
    ∃ r ev, instance_action_aws env action state id name region sched = Except.ok (r, ev) ∧
      ((Event.startCall region id ∈ ev) ↔ (pyLower action = "start" ∧ state = "stopped")) ∧
      ((Event.stopCall region id ∈ ev) ↔ (pyLower action = "stop" ∧ state = "running")) ∧
      (¬(pyLower action = "start" ∧ state = "stopped") →
        ¬(pyLower action = "stop" ∧ state = "running") →
          r = emptyActionResult ∧ ev = []) ∧
      (pyLower action = "start" ∧ state = "stopped" → env.startFails region id = false →
        r.state_changes = [⟨id, name, region, sched, "start", "stopped", "pending"⟩] ∧
          r.instances_modified = 1) ∧
      (pyLower action = "stop" ∧ state = "running" → env.stopFails region id = false →
        r.state_changes = [⟨id, name, region, sched, "stop", "running", "stopping"⟩] ∧
          r.instances_modified = 1) := by
  unfold instance_action_aws
  rw [if_pos hreg]
  by_cases hstart : pyLower action = "start" ∧ state = "stopped"
  · rw [if_pos hstart]
    have hnostop : ¬(pyLower action = "stop" ∧ state = "running") := by
      rintro ⟨hs, -⟩
      exact absurd (hstart.1.symm.trans hs) (by decide)
    by_cases hf : env.startFails region id = true
    · rw [if_pos hf]
      refine ⟨_, _, rfl, ?_, ?_, ?_, ?_, ?_⟩
      · simpa using hstart
      · constructor
        · intro hmem
          simp at hmem
        · intro hs
          exact absurd hs hnostop
      · intro hno _
        exact absurd hstart hno
      · intro _ hff
        rw [hff] at hf
        simp at hf
      · intro hs _
        exact absurd hs hnostop
    · rw [if_neg hf]
      refine ⟨_, _, rfl, ?_, ?_, ?_, ?_, ?_⟩
      · simpa using hstart
      · constructor
        · intro hmem
          simp at hmem
        · intro hs
          exact absurd hs hnostop
      · intro hno _
        exact absurd hstart hno
      · intro _ _
        exact ⟨rfl, rfl⟩
      · intro hs _
        exact absurd hs hnostop
  · rw [if_neg hstart]
    by_cases hstop : pyLower action = "stop" ∧ state = "running"
    · rw [if_pos hstop]
      by_cases hf : env.stopFails region id = true
      · rw [if_pos hf]
        refine ⟨_, _, rfl, ?_, ?_, ?_, ?_, ?_⟩
        · constructor
          · intro hmem
            simp at hmem
          · intro hs
            exact absurd hs hstart
        · simpa using hstop
        · intro _ hno
          exact absurd hstop hno
        · intro hs _
          exact absurd hs hstart
        · intro _ hff
          rw [hff] at hf
          simp at hf
      · rw [if_neg hf]
        refine ⟨_, _, rfl, ?_, ?_, ?_, ?_, ?_⟩
        · constructor
          · intro hmem
            simp at hmem
          · intro hs
            exact absurd hs hstart
        · simpa using hstop
        · intro _ hno
          exact absurd hstop hno
        · intro hs _
          exact absurd hs hstart
        · intro _ _
          exact ⟨rfl, rfl⟩
    · rw [if_neg hstop]
      refine ⟨_, _, rfl, ?_, ?_, ?_, ?_, ?_⟩
      · constructor
        · intro hmem
          simp at hmem
        · intro hs
          exact absurd hs hstart
      · constructor
        · intro hmem
          simp at hmem
        · intro hs
          exact absurd hs hstop
      · intro _ _
        exact ⟨rfl, rfl⟩
      · intro hs _
        exact absurd hs hstart
      · intro hs _
        exact absurd hs hstop

theorem C6_witness :
    ("us-east-1" ∈ REGIONS_EC2) ∧
      (∃ r ev,
        instance_action_aws envOkStop "START" "stopped" "i-1" "web" "us-east-1" "morning" =
          Except.ok (r, ev) ∧
        ((Event.startCall "us-east-1" "i-1" ∈ ev) ↔
          (pyLower "START" = "start" ∧ ("stopped" : String) = "stopped")) ∧
        ((Event.stopCall "us-east-1" "i-1" ∈ ev) ↔
          (pyLower "START" = "stop" ∧ ("stopped" : String) = "running")) ∧
        (¬(pyLower "START" = "start" ∧ ("stopped" : String) = "stopped") →
          ¬(pyLower "START" = "stop" ∧ ("stopped" : String) = "running") →
            r = emptyActionResult ∧ ev = []) ∧
        (pyLower "START" = "start" ∧ ("stopped" : String) = "stopped" →
          envOkStop.startFails "us-east-1" "i-1" = false →
            r.state_changes = [⟨"i-1", "web", "us-east-1", "morning", "start", "stopped", "pending"⟩] ∧
              r.instances_modified = 1) ∧
        (pyLower "START" = "stop" ∧ ("stopped" : String) = "running" →
          envOkStop.stopFails "us-east-1" "i-1" = false →
            r.state_changes = [⟨"i-1", "web", "us-east-1", "morning", "stop", "running", "stopping"⟩] ∧
              r.instances_modified = 1)) :=
  ⟨by decide, C6_thm envOkStop "START" "stopped" "i-1" "web" "us-east-1" "morning" (by decide)⟩

/-- C10: an instance whose derived name is empty (in particular one with no
`Name` tag) is never dropped by the name-exclusion loop: whenever the
server-side state/tag filter keeps it, its record appears in that region's
result list.  Conversely the exclusion patterns can only fire on a non-empty
derived name that contains one of them case-insensitively. -/
theorem C10_thm :
    (∀ (env : Env) (forTag : Option String) (region : String)
        (res : List RawInstance) (i : RawInstance),
      region ∈ REGIONS_EC2 → res ∈ env.reservations region → i ∈ res →
        serverKeeps forTag i = true → deriveName i.tags = "" →
          ∃ l, (region, l) ∈ (get_filtered_ec2_instances env forTag).1 ∧
            (⟨i.instanceId, "", i.state⟩ : InstRecord) ∈ l) ∧
    (∀ name, excludedByName name = true →
      name ≠ "" ∧ ∃ p ∈ NAME_FILTER_EXCLUDE_PATTERNS,
        hasSub (pyLower p).data (pyLower name).data = true) ∧
    (∀ tags : List (String × String), (∀ kv ∈ tags, kv.1 ≠ "Name") →
      deriveName tags = "") := by
  refine ⟨?_, ?_, ?_⟩
  · intro env forTag region res i hreg hres hi hkeep hname
    refine ⟨((awsDescribe env region forTag).map
      (fun r => r.filterMap processInstance)).flatten, ?_, ?_⟩
    · unfold get_filtered_ec2_instances
      simp only []
      exact List.mem_map.2 ⟨region, hreg, rfl⟩
    · apply List.mem_flatten.2
      refine ⟨(res.filter (serverKeeps forTag)).filterMap processInstance, ?_, ?_⟩
      · unfold awsDescribe
        exact List.mem_map.2 ⟨res.filter (serverKeeps forTag),
          List.mem_map.2 ⟨res, hres, rfl⟩, rfl⟩
      · apply List.mem_filterMap.2
        refine ⟨i, List.mem_filter.2 ⟨hi, hkeep⟩, ?_⟩
        unfold processInstance
        rw [hname]
        rw [if_neg (by simp [excludedByName_empty])]
  · intro name hex
    have hne : name ≠ "" := by
      intro h
      rw [h, excludedByName_empty] at hex
      simp at hex
    refine ⟨hne, ?_⟩
    unfold excludedByName at hex
    exact List.any_eq_true.1 hex
  · intro tags htags
    unfold deriveName
    have hfil : tags.filter (fun t => t.1 == "Name") = [] := by
      rw [List.filter_eq_nil_iff]
      intro a ha
      simp only [beq_iff_eq]
      exact htags a ha
    rw [hfil]
    rfl

theorem C10_witness :
    (("us-east-1" : String) ∈ REGIONS_EC2) ∧
      serverKeeps (some "morning") ⟨"i-1", [("ScheduledFor", "morning")], "stopped"⟩ = true ∧
      deriveName [("ScheduledFor", "morning")] = "" ∧
      (∃ l, ("us-east-1", l) ∈ (get_filtered_ec2_instances envFailAws (some "morning")).1 ∧
        (⟨"i-1", "", "stopped"⟩ : InstRecord) ∈ l) :=
  ⟨by decide, by decide, by decide,
   C10_thm.1 envFailAws (some "morning") "us-east-1"
     [⟨"i-1", [("ScheduledFor", "morning")], "stopped"⟩]
     ⟨"i-1", [("ScheduledFor", "morning")], "stopped"⟩
     (by decide) (by decide) (by decide) (by decide) (by decide)⟩

/-- C2 (code bug witness): a sweep in which the compute API rejects one start
request.  In src/aws_scheduler/app.py the ClientError handler appends the
error record to `instance_action`'s local `result` dict, but the function
never returns it, so the sweep continues (both start calls are issued) yet
its returned value is only the status dict with `processed_instances = None` —
no error record and no transition record reach the caller.  In src/app.py the
handler itself evaluates `schedule['action']` where `schedule` is the
module-level route handler function, so the TypeError escapes and aborts the
whole sweep before the second instance is processed. -/
theorem C2_thm :
    scan_for_action envFailAws =
      Except.ok (⟨"success", AppliedVal.noneVal⟩,
        [Event.describeCall "eu-central-1" (some "morning"),
         Event.describeCall "us-east-1" (some "morning"),
         Event.describeCall "ap-south-1" (some "morning"),
         Event.startCall "us-east-1" "i-1",
         Event.startCall "us-east-1" "i-2"]) ∧
      get_all_active_schedules envFailV1 =
        Except.error (PyErr.otherError "TypeError: function object is not subscriptable") :=
  ⟨rfl, rfl⟩

/-- C3 (code bug witness): a sweep with one due schedule whose stop action
succeeds on a running instance.  The stop call is issued (last event), but
`scan_for_action` returns only `{"status": "success", "processed_instances":
None}`: `instance_action` never returns its local result dict, so the sweep
result carries neither the modified-instance count nor any Transition
Record. -/
theorem C3_thm :
    scan_for_action envOkStop =
      Except.ok (⟨"success", AppliedVal.noneVal⟩,
        [Event.describeCall "eu-central-1" (some "nightly"),
         Event.describeCall "us-east-1" (some "nightly"),
         Event.describeCall "ap-south-1" (some "nightly"),
         Event.stopCall "us-east-1" "i-9"]) :=
  rfl

/-- C4 counterexample: `scan_for_action` calls the instance filter before
evaluating the temporal matcher, so a sweep over a single active schedule
that is not due still issues one describe call per region. -/
theorem C4_counterexample :
    should_execute "0 10 * * *" none (⟨2025, 1, 8, 11, 0, 0⟩ : DateTime) = false ∧
      scan_for_action envNotDue =
        Except.ok (⟨"success", AppliedVal.initialEmpty⟩, describeEvents (some "offpeak")) ∧
      Event.describeCall "us-east-1" (some "offpeak") ∈ describeEvents (some "offpeak") :=
  ⟨rfl, rfl, by decide⟩

/-- C4 (amended): the instance filter runs for every active schedule before
the matcher is consulted; what the matcher gates is only the action phase.  A
sweep over one active schedule that is not due returns with exactly the three
describe calls (a nonempty list) and no start or stop call. -/
theorem C4_amended (env : Env) (sch : Schedule)
    (hact : get_active_schedules env = [sch])
    (hnotdue : should_execute sch.cron_expression sch.untilDate env.now = false) :
    scan_for_action env =
      Except.ok (⟨"success", AppliedVal.initialEmpty⟩, describeEvents (some sch.name)) ∧
      describeEvents (some sch.name) ≠ [] := by
  constructor
  · unfold scan_for_action sweepSchedules
    rw [hact]
    simp only [List.foldl]
    unfold processSchedule_aws
    rw [hnotdue]
    simp [get_filtered_ec2_instances]
  · simp [describeEvents, REGIONS_EC2]

theorem C4_witness :
    (get_active_schedules envNotDue = [⟨"offpeak", "stop", "true", "0 10 * * *", none⟩]) ∧
      should_execute "0 10 * * *" none envNotDue.now = false ∧
      scan_for_action envNotDue =
        Except.ok (⟨"success", AppliedVal.initialEmpty⟩, describeEvents (some "offpeak")) ∧
      describeEvents (some "offpeak") ≠ [] := by
  refine ⟨by decide, by decide, ?_⟩
  exact C4_amended envNotDue ⟨"offpeak", "stop", "true", "0 10 * * *", none⟩
    (by decide) (by decide)
